import Mathlib

/-!
Shallow embedding of the cache-coordination and request-resolution core of
`src/server.py` (Research Hub local caching proxy), together with theorems
settling the spec claims about it.

Modelling conventions:
- Timestamps are integers (Python uses `time.time()` floats; only order and
  subtraction matter to the code).
- A parsed JSON value is the inductive `Json`; Python `dict.get` is `jsonGet`,
  Python `dict` assignment is `jsonPut` (replace in place, else append —
  matching insertion-order dict semantics).
- Exceptions are modelled by total functions: every `try/except` block of the
  source becomes a case split on an outcome argument describing what the
  environment (file system, network) did.
- Python truthiness on strings matters in `proxy_api` (`if fresh:` /
  `if stale:`): it is modelled by an explicit emptiness test.
-/

/-- A cache entry as stored in `paper_cache.json`: `{ts: ..., data: ...}`
(`src/server.py` line 133 / 148). -/
structure CacheEntry where
  ts : Int
  data : String
deriving Repr, DecidableEq

/-- The in-memory cache dict, keyed by the raw query string. -/
abbrev Cache := List (String × CacheEntry)

/-- `CACHE_TTL = 60 * 60 * 24` (`src/server.py` line 35). -/
def CACHE_TTL : Int := 60 * 60 * 24

/-- Parsed JSON values, as produced by `json.load` / `json.loads`.
Numbers are abstracted to integers. -/
inductive Json where
  | null
  | bool (b : Bool)
  | num (n : Int)
  | str (s : String)
  | arr (elems : List Json)
  | obj (fields : List (String × Json))

/-- Python `dict.get key` on a JSON object field list (first match). -/
def jsonGet : List (String × Json) → String → Option Json
  | [], _ => none
  | (k, v) :: rest, key => if k = key then some v else jsonGet rest key

/-- Python `d[key] = v` on a JSON object field list: replace the binding in
place if the key is present, else append. -/
def jsonPut : List (String × Json) → String → Json → List (String × Json)
  | [], key, v => [(key, v)]
  | (k, w) :: rest, key, v =>
      if k = key then (key, v) :: rest else (k, w) :: jsonPut rest key v

/-- `cache.get(key)` on the typed cache dict. -/
def cacheGet : Cache → String → Option CacheEntry
  | [], _ => none
  | (k, e) :: rest, key => if k = key then some e else cacheGet rest key

/-- `get_cached(cache, key)` (`src/server.py` lines 62-67): the data string if
the entry exists and `now - ts < CACHE_TTL`, else `None`. (A present typed
entry is always truthy, so `if entry and ...` is just the presence test.) -/
def get_cached (cache : Cache) (key : String) (now : Int) : Option String :=
  match cacheGet cache key with
  | some entry => if now - entry.ts < CACHE_TTL then some entry.data else none
  | none => none

/-- `get_stale(cache, key)` (`src/server.py` lines 69-72): the data string
whenever the entry exists, regardless of age. -/
def get_stale (cache : Cache) (key : String) : Option String :=
  match cacheGet cache key with
  | some entry => some entry.data
  | none => none

/-- Outcome of one `_fetch_api` call (`src/server.py` lines 164-174), as seen
by its callers:
- `ok raw parsed`: 2xx response whose body decoded to `raw` and json-parsed
  to `parsed`;
- `httpError code body`: `urllib.error.HTTPError` with the upstream status
  code and decoded body;
- `failure msg`: any other raised exception (transport error, timeout, or a
  `json.loads` parse error on a 2xx body), with its message. -/
inductive FetchResult where
  | ok (raw : String) (parsed : Json)
  | httpError (code : Nat) (body : String)
  | failure (msg : String)

/-- Body passed to `_send_json`: either an existing string sent verbatim, or
the synthesized error document `json.dumps( message and null data )`
built at `src/server.py` line 161. -/
inductive SentBody where
  | verbatim (s : String)
  | errorPayload (message : String)
deriving Repr, DecidableEq

/-- Observable outcome of one synchronous resolution (`proxy_api`):
the HTTP status and body sent, the number of synchronous upstream calls made
before responding, the read-modify-write the resolution performed on the
store (key and entry), and whether a background refresh thread was spawned. -/
structure ResolveResult where
  status : Nat
  body : SentBody
  syncCalls : Nat
  write : Option (String × CacheEntry)
  bgSpawned : Bool
deriving Repr, DecidableEq

/-- The Python type name of a parsed JSON value, as it appears in the
`AttributeError` text raised by calling `.get` on a non-dict. -/
def pyTypeName : Json → String
  | .null => "NoneType"
  | .bool _ => "bool"
  | .num _ => "int"
  | .str _ => "str"
  | .arr _ => "list"
  | .obj _ => "dict"

/-- `str(e)` for the `AttributeError` raised by `data.get` when `data` is not
a dict. -/
def pyAttrGetError (j : Json) : String :=
  "\x27" ++ pyTypeName j ++ "\x27 object has no attribute \x27get\x27"

/-- Whether a parsed body counts as a successful result:
`data.get("data") is not None`, i.e. the value is a dict with a `data` field
whose value is not JSON null (`src/server.py` lines 130 and 143-144). -/
def isSuccessShape : Json → Bool
  | .obj fields =>
    match jsonGet fields "data" with
    | some .null => false
    | some _ => true
    | none => false
  | _ => false

/-- Whether a fetch outcome is a Success in the sense of the spec taxonomy:
a 2xx response whose parsed body has a non-null `data` field. -/
def isSuccess : FetchResult → Bool
  | .ok _ parsed => isSuccessShape parsed
  | _ => false

/-- `_fetch_and_respond` (`src/server.py` lines 139-162): the miss path.
One upstream call, then:
- non-null `data` field: respond 200 with the raw body and write the entry
  into the store (the write is recorded as the key/entry pair; it is applied
  to the store by `rmw` below);
- `data` absent or null but a `message` key present: respond 429 verbatim;
- `data` absent or null, no `message` key: respond 200 verbatim, no write;
- parsed body not a dict: `data.get` raises `AttributeError`, caught by the
  generic handler, respond 502 with the synthesized error payload;
- `HTTPError`: respond with the upstream status and body;
- any other exception: respond 502 with the synthesized error payload. -/
def fetch_and_respond (key : String) (now : Int) (f : FetchResult) : ResolveResult :=
  match f with
  | .ok raw parsed =>
    match parsed with
    | .obj fields =>
      match jsonGet fields "data" with
      | some .null =>
        if (jsonGet fields "message").isSome then
          ⟨429, .verbatim raw, 1, none, false⟩
        else
          ⟨200, .verbatim raw, 1, none, false⟩
      | some _ => ⟨200, .verbatim raw, 1, some (key, ⟨now, raw⟩), false⟩
      | none =>
        if (jsonGet fields "message").isSome then
          ⟨429, .verbatim raw, 1, none, false⟩
        else
          ⟨200, .verbatim raw, 1, none, false⟩
    | other => ⟨502, .errorPayload (pyAttrGetError other), 1, none, false⟩
  | .httpError code body => ⟨code, .verbatim body, 1, none, false⟩
  | .failure msg => ⟨502, .errorPayload msg, 1, none, false⟩

/-- The part of `proxy_api` after the fresh check failed (`src/server.py`
lines 109-122): serve stale if `get_stale` returned a truthy (non-empty)
string, spawning a background refresh; otherwise fall through to the live
fetch. -/
def stale_or_fetch (cache : Cache) (key : String) (now : Int) (f : FetchResult) : ResolveResult :=
  match get_stale cache key with
  | some t =>
      if t = "" then fetch_and_respond key now f
      else ⟨200, .verbatim t, 0, none, true⟩
  | none => fetch_and_respond key now f

/-- `proxy_api` (`src/server.py` lines 88-122) for one request with cache
snapshot `cache`, key `key`, current time `now`; `f` is what the one
synchronous upstream call would return if made. `if fresh:` is Python
truthiness: a non-empty string. -/
def proxy_api (cache : Cache) (key : String) (now : Int) (f : FetchResult) : ResolveResult :=
  match get_cached cache key now with
  | some s =>
      if s = "" then stale_or_fetch cache key now f
      else ⟨200, .verbatim s, 0, none, false⟩
  | none => stale_or_fetch cache key now f

/-- `_bg_refresh` (`src/server.py` lines 126-137): the detached refresh task.
It sends nothing to any client; its only effect is an optional store write,
performed when the fetched body is a dict with a non-null `data` field.
Every exception is caught and discarded. -/
def bg_refresh (key : String) (now : Int) (f : FetchResult) : Option (String × CacheEntry) :=
  match f with
  | .ok raw parsed =>
    match parsed with
    | .obj fields =>
      match jsonGet fields "data" with
      | some .null => none
      | some _ => some (key, ⟨now, raw⟩)
      | none => none
    | _ => none
  | _ => none

/-- State of the on-disk `paper_cache.json`:
missing (open raises), unreadable (open or `json.load` raises: corrupt or
truncated content), or a readable document that parsed to `j`. -/
inductive DiskState where
  | missing
  | unreadable
  | doc (j : Json)

/-- How one `save_cache` attempt went, chosen by the environment:
- `success`: open and `json.dump` both succeeded;
- `openFailed`: `open(..., w)` raised, file untouched;
- `writeFailed`: `open(..., w)` truncated the file and then `json.dump`
  raised part-way, leaving a truncated document that no longer parses. -/
inductive SaveOutcome where
  | success
  | openFailed
  | writeFailed

/-- JSON encoding of one cache entry, as `json.dump` writes it. -/
def encodeEntry (e : CacheEntry) : Json :=
  .obj [("ts", .num e.ts), ("data", .str e.data)]

/-- `load_cache` (`src/server.py` lines 46-52): the parsed document on
success, the empty dict on any exception. Totality of this function is the
never-raises guarantee. -/
def load_cache : DiskState → Json
  | .missing => .obj []
  | .unreadable => .obj []
  | .doc j => j

/-- `save_cache` (`src/server.py` lines 54-60) writing document `d`:
on success the disk holds exactly `d`; on an open failure the prior state
survives and a warning is printed; on a failure during writing the prior
content has already been truncated away, leaving an unreadable file (the
exception is still caught and only a warning is printed). -/
def save_cache (d : Json) (disk : DiskState) (o : SaveOutcome) : DiskState :=
  match o with
  | .success => .doc d
  | .openFailed => disk
  | .writeFailed => .unreadable

/-- Whether a JSON value is a mapping (a dict). -/
def isMapping : Json → Bool
  | .obj _ => true
  | _ => false

/-- The JSON value stored under `key` in the on-disk document, if the
document loads as a mapping and has the key. -/
def storedEntry (d : DiskState) (key : String) : Option Json :=
  match load_cache d with
  | .obj fields => jsonGet fields key
  | _ => none

/-- The payload string stored under `key` in a loaded document: the `data`
field of the entry object at `key`. -/
def payloadAt (j : Json) (key : String) : Option String :=
  match j with
  | .obj fields =>
    match jsonGet fields key with
    | some (.obj ef) =>
      match jsonGet ef "data" with
      | some (.str s) => some s
      | _ => none
    | _ => none
  | _ => none

/-- One complete read-modify-write cycle against the store, executed
atomically because every such cycle in the source holds `_cache_lock`
(`src/server.py` lines 131-134 and 146-149): reload the document, set
`cache[key]`, save. If the loaded document is not a dict, the item
assignment raises, the exception is caught, and nothing is saved. The save
itself is taken to succeed. -/
def rmw (disk : DiskState) (key : String) (e : CacheEntry) : DiskState :=
  match load_cache disk with
  | .obj fields => save_cache (.obj (jsonPut fields key (encodeEntry e))) disk .success
  | _ => disk

/-- A serialized sequence of atomic read-modify-write cycles: because each
cycle holds the process-wide lock, any concurrent execution of them is
equivalent to running them one after another in some order. -/
def applyRmws (disk : DiskState) (ws : List (String × CacheEntry)) : DiskState :=
  ws.foldl (fun d p => rmw d p.1 p.2) disk

/-- The pure effect of a serialized write sequence on a field list. -/
def putAll (fs : List (String × Json)) (ws : List (String × CacheEntry)) : List (String × Json) :=
  ws.foldl (fun acc p => jsonPut acc p.1 (encodeEntry p.2)) fs

/-- Applying the optional write produced by a background refresh. -/
def bgApply (disk : DiskState) (w : Option (String × CacheEntry)) : DiskState :=
  match w with
  | some (k, e) => rmw disk k e
  | none => disk

/-! ## Helper lemmas -/

theorem jsonGet_put_self (fs : List (String × Json)) (k : String) (v : Json) :
    jsonGet (jsonPut fs k v) k = some v := by
  induction fs with
  | nil => simp [jsonPut, jsonGet]
  | cons hd tl ih =>
    obtain ⟨k0, v0⟩ := hd
    by_cases h : k0 = k
    · simp [jsonPut, h, jsonGet]
    · simp [jsonPut, h, jsonGet, ih]

theorem jsonGet_put_other (fs : List (String × Json)) (k k' : String) (v : Json)
    (h : k' ≠ k) : jsonGet (jsonPut fs k v) k' = jsonGet fs k' := by
  induction fs with
  | nil => simp [jsonPut, jsonGet, Ne.symm h]
  | cons hd tl ih =>
    obtain ⟨k0, v0⟩ := hd
    by_cases h0 : k0 = k
    · subst h0
      simp [jsonPut, jsonGet, Ne.symm h]
    · simp [jsonPut, h0, jsonGet, ih]

theorem putAll_cons (fs : List (String × Json)) (p : String × CacheEntry)
    (ws : List (String × CacheEntry)) :
    putAll fs (p :: ws) = putAll (jsonPut fs p.1 (encodeEntry p.2)) ws := rfl

theorem jsonGet_putAll_not_mem (ws : List (String × CacheEntry))
    (fs : List (String × Json)) (k : String) (h : k ∉ ws.map Prod.fst) :
    jsonGet (putAll fs ws) k = jsonGet fs k := by
  induction ws generalizing fs with
  | nil => rfl
  | cons q rest ih =>
    simp only [List.map_cons, List.mem_cons] at h
    push_neg at h
    rw [putAll_cons, ih _ h.2, jsonGet_put_other _ _ _ _ h.1]

theorem jsonGet_putAll_mem (ws : List (String × CacheEntry))
    (fs : List (String × Json)) (hnd : (ws.map Prod.fst).Nodup) :
    ∀ p ∈ ws, jsonGet (putAll fs ws) p.1 = some (encodeEntry p.2) := by
  induction ws generalizing fs with
  | nil => intro p hp; cases hp
  | cons q rest ih =>
    rw [List.map_cons, List.nodup_cons] at hnd
    intro p hp
    rcases List.mem_cons.mp hp with hq | hr
    · subst hq
      rw [putAll_cons, jsonGet_putAll_not_mem _ _ _ hnd.1, jsonGet_put_self]
    · rw [putAll_cons]
      exact ih _ hnd.2 p hr

theorem load_rmw (disk : DiskState) (fs : List (String × Json)) (k : String)
    (e : CacheEntry) (h : load_cache disk = .obj fs) :
    load_cache (rmw disk k e) = .obj (jsonPut fs k (encodeEntry e)) := by
  rw [rmw, h]
  rfl

theorem load_applyRmws (ws : List (String × CacheEntry)) (disk : DiskState)
    (fs : List (String × Json)) (h : load_cache disk = .obj fs) :
    load_cache (applyRmws disk ws) = .obj (putAll fs ws) := by
  induction ws generalizing disk fs with
  | nil => exact h
  | cons q rest ih =>
    have : applyRmws disk (q :: rest) = applyRmws (rmw disk q.1 q.2) rest := rfl
    rw [this, putAll_cons]
    exact ih _ _ (load_rmw disk fs q.1 q.2 h)

theorem fetch_and_respond_syncCalls (key : String) (now : Int) (f : FetchResult) :
    (fetch_and_respond key now f).syncCalls = 1 := by
  rcases f with ⟨raw, parsed⟩ | ⟨code, body⟩ | msg
  · rcases parsed with _ | b | n | s | el | fields
    · rfl
    · rfl
    · rfl
    · rfl
    · rfl
    · rw [fetch_and_respond]
      rcases hd : jsonGet fields "data" with _ | v
      · by_cases hm : (jsonGet fields "message").isSome <;> simp [hd, hm]
      · rcases v with _ | b | n | s | el | f2
        · by_cases hm : (jsonGet fields "message").isSome <;> simp [hd, hm]
        · simp [hd]
        · simp [hd]
        · simp [hd]
        · simp [hd]
        · simp [hd]
  · rfl
  · rfl

theorem bg_refresh_of_not_success (key : String) (now : Int) (f : FetchResult)
    (h : isSuccess f = false) : bg_refresh key now f = none := by
  rcases f with ⟨raw, parsed⟩ | ⟨code, body⟩ | msg
  · rcases parsed with _ | b | n | s | el | fields
    · rfl
    · rfl
    · rfl
    · rfl
    · rfl
    · rw [isSuccess, isSuccessShape] at h
      rw [bg_refresh]
      rcases hd : jsonGet fields "data" with _ | v
      · simp [hd]
      · rcases v with _ | b | n | s | el | f2 <;> simp_all [hd]
  · rfl
  · rfl

/-! ## Claims -/

/-- C1 fails as stated: a fresh cache entry whose stored payload is the empty
string is falsy in Python, so `if fresh:` (`src/server.py` line 105) rejects
it, `if stale:` (line 112) rejects it too, and the resolution performs a
synchronous upstream call instead of serving the stored payload. Concrete
input: store `k` maps to entry with ts 0 and empty data, current time 0
(within TTL). -/
theorem claim_C1_counterexample :
    cacheGet [("k", ⟨0, ""⟩)] "k" = some ⟨0, ""⟩ ∧
    (0 : Int) - (0 : Int) < CACHE_TTL ∧
    (proxy_api [("k", ⟨0, ""⟩)] "k" 0 (.failure "boom")).syncCalls ≠ 0 := by
  decide

/-- C1 (amended): for every request key whose cache entry has a `storedAt`
within TTL of the current time and a non-empty stored payload, resolution
returns exactly the stored payload with status 200 and performs zero
synchronous upstream calls, no store write, and no background refresh. -/
theorem claim_C1 (cache : Cache) (key : String) (now : Int) (f : FetchResult)
    (e : CacheEntry) (h1 : cacheGet cache key = some e)
    (h2 : now - e.ts < CACHE_TTL) (h3 : e.data ≠ "") :
    proxy_api cache key now f = ⟨200, .verbatim e.data, 0, none, false⟩ := by
  have hf : get_cached cache key now = some e.data := by
    simp only [get_cached, h1]
    rw [if_pos h2]
  simp only [proxy_api, hf]
  rw [if_neg h3]

/-- C1 witness: a fresh non-empty entry, served with zero upstream calls. -/
theorem claim_C1_witness :
    proxy_api [("k", ⟨0, "pay"⟩)] "k" 10 (.failure "x") =
      ⟨200, .verbatim "pay", 0, none, false⟩ :=
  claim_C1 _ _ _ _ ⟨0, "pay"⟩ (by decide) (by decide) (by decide)

/-- C2 fails as stated: a stale cache entry whose stored payload is the empty
string is falsy in Python, so the stale-hit branch (`src/server.py` line 112)
is skipped and a synchronous upstream call is made. Concrete input: store `k`
maps to entry with ts 0 and empty data, current time 86400 (exactly TTL, so
stale). -/
theorem claim_C2_counterexample :
    cacheGet [("k", ⟨0, ""⟩)] "k" = some ⟨0, ""⟩ ∧
    CACHE_TTL ≤ (86400 : Int) - (0 : Int) ∧
    (proxy_api [("k", ⟨0, ""⟩)] "k" 86400 (.failure "down")).syncCalls ≠ 0 := by
  decide

/-- C2 (amended): for every request key whose cache entry exists, is at least
TTL old, and has a non-empty stored payload, resolution returns the stored
stale payload with status 200, makes no synchronous upstream call and no
synchronous store write, and spawns a detached background refresh; on any
background outcome other than Success the refresh writes nothing, so the
store is left unchanged, and the background task sends nothing to the
caller. -/
theorem claim_C2 (cache : Cache) (key : String) (now : Int) (f g : FetchResult)
    (e : CacheEntry) (h1 : cacheGet cache key = some e)
    (h2 : CACHE_TTL ≤ now - e.ts) (h3 : e.data ≠ "") :
    proxy_api cache key now f = ⟨200, .verbatim e.data, 0, none, true⟩ ∧
    (isSuccess g = false →
      bg_refresh key now g = none ∧
      ∀ disk : DiskState, bgApply disk (bg_refresh key now g) = disk) := by
  constructor
  · have hf : get_cached cache key now = none := by
      simp only [get_cached, h1]
      rw [if_neg (not_lt.mpr h2)]
    have hs : get_stale cache key = some e.data := by
      simp only [get_stale, h1]
    simp only [proxy_api, hf, stale_or_fetch, hs]
    rw [if_neg h3]
  · intro hg
    have hn := bg_refresh_of_not_success key now g hg
    exact ⟨hn, fun disk => by rw [hn]; rfl⟩

/-- C2 witness: a stale non-empty entry served instantly with a background
refresh spawned, and a failed background outcome writing nothing. -/
theorem claim_C2_witness :
    proxy_api [("k", ⟨0, "pay"⟩)] "k" 86400 (.failure "x") =
      ⟨200, .verbatim "pay", 0, none, true⟩ ∧
    bg_refresh "k" 86400 (.httpError 500 "oops") = none := by
  have h := claim_C2 [("k", ⟨0, "pay"⟩)] "k" 86400 (.failure "x")
    (.httpError 500 "oops") ⟨0, "pay"⟩ (by decide) (by decide) (by decide)
  exact ⟨h.1, (h.2 rfl).1⟩

/-- C3: on a miss (key absent from the snapshot) exactly one synchronous
upstream call is made whatever its outcome; on a Success outcome the raw
payload is returned with status 200 and written into the store under the key,
and that read-modify-write inserts or overwrites only that one entry, leaving
every other key of the store unchanged. -/
theorem claim_C3 (cache : Cache) (key : String) (now : Int) (raw : String)
    (parsed : Json) (h : cacheGet cache key = none) :
    (∀ f, (proxy_api cache key now f).syncCalls = 1) ∧
    (isSuccessShape parsed = true →
      proxy_api cache key now (.ok raw parsed) =
        ⟨200, .verbatim raw, 1, some (key, ⟨now, raw⟩), false⟩) ∧
    (∀ disk : DiskState, ∀ fs : List (String × Json), load_cache disk = .obj fs →
      storedEntry (rmw disk key ⟨now, raw⟩) key = some (encodeEntry ⟨now, raw⟩) ∧
      ∀ k', k' ≠ key → storedEntry (rmw disk key ⟨now, raw⟩) k' = storedEntry disk k') := by
  have hf : get_cached cache key now = none := by simp only [get_cached, h]
  have hs : get_stale cache key = none := by simp only [get_stale, h]
  have hp : ∀ f, proxy_api cache key now f = fetch_and_respond key now f := by
    intro f
    simp only [proxy_api, hf, stale_or_fetch, hs]
  refine ⟨fun f => ?_, fun hsuc => ?_, fun disk fs hl => ?_⟩
  · rw [hp]
    exact fetch_and_respond_syncCalls key now f
  · rw [hp]
    cases parsed with
    | null => simp [isSuccessShape] at hsuc
    | bool b => simp [isSuccessShape] at hsuc
    | num n => simp [isSuccessShape] at hsuc
    | str s => simp [isSuccessShape] at hsuc
    | arr el => simp [isSuccessShape] at hsuc
    | obj fields =>
      rw [isSuccessShape] at hsuc
      rcases hd : jsonGet fields "data" with _ | v
      · simp [hd] at hsuc
      · rcases v with _ | b | n | s | el | f2
        · simp [hd] at hsuc
        · simp [fetch_and_respond, hd]
        · simp [fetch_and_respond, hd]
        · simp [fetch_and_respond, hd]
        · simp [fetch_and_respond, hd]
        · simp [fetch_and_respond, hd]
  · have hload := load_rmw disk fs key ⟨now, raw⟩ hl
    constructor
    · simp only [storedEntry, hload]
      exact jsonGet_put_self fs key (encodeEntry ⟨now, raw⟩)
    · intro k' hk
      simp only [storedEntry, hload, hl]
      exact jsonGet_put_other fs key k' (encodeEntry ⟨now, raw⟩) hk

/-- C3 witness: a miss with a Success outcome carrying an empty result list
is served with status 200 and written into the store. -/
theorem claim_C3_witness :
    proxy_api [] "k" 5 (.ok "okraw" (.obj [("data", Json.arr [])])) =
      ⟨200, .verbatim "okraw", 1, some ("k", ⟨5, "okraw"⟩), false⟩ :=
  (claim_C3 [] "k" 5 "okraw" (.obj [("data", Json.arr [])]) rfl).2.1 rfl

/-- C4: on a miss, when the upstream 2xx body is a dict with no `data` field
but a `message` field, the client receives the upstream body verbatim with
status 429 and no store write is performed (`src/server.py` lines 151-153). -/
theorem claim_C4 (cache : Cache) (key : String) (now : Int) (raw : String)
    (fields : List (String × Json)) (h : cacheGet cache key = none)
    (hd : jsonGet fields "data" = none)
    (hm : (jsonGet fields "message").isSome = true) :
    proxy_api cache key now (.ok raw (.obj fields)) =
      ⟨429, .verbatim raw, 1, none, false⟩ := by
  have hf : get_cached cache key now = none := by simp only [get_cached, h]
  have hs : get_stale cache key = none := by simp only [get_stale, h]
  simp only [proxy_api, hf, stale_or_fetch, hs]
  simp [fetch_and_respond, hd, hm]

/-- C4 witness: the rate-limit shape from the spec scenario. -/
theorem claim_C4_witness :
    proxy_api [] "k" 0
        (.ok "ratelimitedraw" (.obj [("message", .str "rate limited")])) =
      ⟨429, .verbatim "ratelimitedraw", 1, none, false⟩ :=
  claim_C4 [] "k" 0 "ratelimitedraw" [("message", .str "rate limited")] rfl rfl rfl

/-- C5 fails as stated: a non-2xx upstream response is passed through with
the upstream status code and body (`src/server.py` lines 157-159), not
synthesized into a 5xx-class error. Concrete input: empty store, upstream
responds 404 with body notfound; the client receives 404 with that body. -/
theorem claim_C5_counterexample :
    cacheGet ([] : Cache) "k" = none ∧
    proxy_api [] "k" 0 (.httpError 404 "notfound") =
      ⟨404, .verbatim "notfound", 1, none, false⟩ ∧
    ¬ 500 ≤ (proxy_api [] "k" 0 (.httpError 404 "notfound")).status := by
  decide

/-- C5 (amended): on a miss, a transport failure, timeout, or parse failure
is returned as the synthesized error payload (the failure description with a
null data marker) with status 502 and no store write; a non-2xx upstream
response is passed through with the upstream status code and body, also with
no store write. -/
theorem claim_C5 (cache : Cache) (key : String) (now : Int) (msg : String)
    (code : Nat) (body : String) (h : cacheGet cache key = none) :
    proxy_api cache key now (.failure msg) =
      ⟨502, .errorPayload msg, 1, none, false⟩ ∧
    proxy_api cache key now (.httpError code body) =
      ⟨code, .verbatim body, 1, none, false⟩ := by
  have hf : get_cached cache key now = none := by simp only [get_cached, h]
  have hs : get_stale cache key = none := by simp only [get_stale, h]
  constructor
  · simp only [proxy_api, hf, stale_or_fetch, hs]
    rfl
  · simp only [proxy_api, hf, stale_or_fetch, hs]
    rfl

/-- C5 witness: a timeout yields the synthesized 502 payload; an upstream 500
is passed through with its own body. -/
theorem claim_C5_witness :
    proxy_api [] "k" 0 (.failure "timed out") =
      ⟨502, .errorPayload "timed out", 1, none, false⟩ ∧
    proxy_api [] "k" 0 (.httpError 500 "server error") =
      ⟨500, .verbatim "server error", 1, none, false⟩ :=
  claim_C5 [] "k" 0 "timed out" 500 "server error" rfl

/-- C6 fails as stated: a readable persisted document whose content is valid
JSON but not an object — here the array document written as two brackets —
is returned as-is by `load_cache` (`src/server.py` line 50), so Load does not
always return a mapping. -/
theorem claim_C6_counterexample :
    isMapping (load_cache (.doc (.arr []))) = false := rfl

/-- C6 (amended): Load never raises — it is total on every disk state: on a
missing file or unreadable or corrupt content it returns the empty mapping,
and a readable persisted document is returned exactly as parsed, which is a
mapping whenever the document is a JSON object (as every document written by
Save is). -/
theorem claim_C6 :
    (∀ d : DiskState, load_cache d = .obj [] ∨ ∃ j, d = .doc j ∧ load_cache d = j) ∧
    load_cache .missing = .obj [] ∧
    load_cache .unreadable = .obj [] ∧
    ∀ fields, load_cache (.doc (.obj fields)) = .obj fields ∧
      isMapping (load_cache (.doc (.obj fields))) = true := by
  refine ⟨fun d => ?_, rfl, rfl, fun fields => ⟨rfl, rfl⟩⟩
  cases d with
  | missing => exact Or.inl rfl
  | unreadable => exact Or.inl rfl
  | doc j => exact Or.inr ⟨j, rfl, rfl⟩

/-- C7 fails as stated: `save_cache` opens the file in write mode, which
truncates it before `json.dump` runs (`src/server.py` line 57), so a dump
failure part-way through destroys the prior document instead of leaving it
untouched. Concrete input: a store holding one entry, and a save of the
empty mapping that fails during writing — the prior on-disk state is gone. -/
theorem claim_C7_counterexample :
    save_cache (.obj []) (DiskState.doc (.obj [("k", Json.str "v")])) .writeFailed ≠
      DiskState.doc (.obj [("k", Json.str "v")]) := by
  intro h
  exact DiskState.noConfusion h

/-- C7 (amended): a failed Save never raises past its boundary (it is total,
and only prints a warning); when the failure occurs before the file is opened
the prior on-disk state is left untouched, and when it occurs during writing
the document is left truncated, which Load then self-heals by treating it as
the empty mapping. -/
theorem claim_C7 (d : Json) (disk : DiskState) :
    save_cache d disk .openFailed = disk ∧
    load_cache (save_cache d disk .writeFailed) = .obj [] :=
  ⟨rfl, rfl⟩

/-- C8: round-trip — inserting an entry into any loaded document and then
performing a successful Save immediately followed by Load yields a store
whose payload for that key is exactly the data string that was written. -/
theorem claim_C8 (fields : List (String × Json)) (key : String) (e : CacheEntry)
    (disk : DiskState) :
    payloadAt
        (load_cache
          (save_cache (.obj (jsonPut fields key (encodeEntry e))) disk .success))
        key = some e.data := by
  have hl : load_cache
      (save_cache (.obj (jsonPut fields key (encodeEntry e))) disk .success) =
      .obj (jsonPut fields key (encodeEntry e)) := rfl
  rw [hl]
  simp only [payloadAt, jsonGet_put_self, encodeEntry]
  simp [jsonGet]

/-- C9: every read-modify-write cycle holds the process-wide `_cache_lock`
(`src/server.py` lines 131-134 and 146-149), so any concurrent execution of
N refreshes is equivalent to running the atomic cycles in some serial order;
for any such order over pairwise-distinct keys, starting from any disk state
that loads as a mapping, the resulting document still loads as a mapping (no
corruption) and contains the written entry for every one of the N keys (no
update is dropped). -/
theorem claim_C9 (disk : DiskState) (ws : List (String × CacheEntry))
    (hm : isMapping (load_cache disk) = true)
    (hnd : (ws.map Prod.fst).Nodup) :
    isMapping (load_cache (applyRmws disk ws)) = true ∧
    ∀ p ∈ ws, storedEntry (applyRmws disk ws) p.1 = some (encodeEntry p.2) := by
  rcases hfs : load_cache disk with _ | b | n | s | el | fields
  · rw [hfs] at hm; simp [isMapping] at hm
  · rw [hfs] at hm; simp [isMapping] at hm
  · rw [hfs] at hm; simp [isMapping] at hm
  · rw [hfs] at hm; simp [isMapping] at hm
  · rw [hfs] at hm; simp [isMapping] at hm
  · have hload := load_applyRmws ws disk fields hfs
    constructor
    · rw [hload]
      rfl
    · intro p hp
      simp only [storedEntry, hload]
      exact jsonGet_putAll_mem ws fields hnd p hp

/-- C9 witness: two serialized refreshes for distinct keys starting from a
missing cache file both end up present and valid. -/
theorem claim_C9_witness :
    isMapping (load_cache (applyRmws .missing [("a", ⟨0, "pa"⟩), ("b", ⟨1, "pb"⟩)])) = true ∧
    storedEntry (applyRmws .missing [("a", ⟨0, "pa"⟩), ("b", ⟨1, "pb"⟩)]) "a" =
      some (encodeEntry ⟨0, "pa"⟩) ∧
    storedEntry (applyRmws .missing [("a", ⟨0, "pa"⟩), ("b", ⟨1, "pb"⟩)]) "b" =
      some (encodeEntry ⟨1, "pb"⟩) := by
  have h := claim_C9 DiskState.missing [("a", ⟨0, "pa"⟩), ("b", ⟨1, "pb"⟩)]
    rfl (by decide)
  exact ⟨h.1, h.2 ("a", ⟨0, "pa"⟩) (by decide), h.2 ("b", ⟨1, "pb"⟩) (by decide)⟩

/-- C10 fails as stated: a 2xx upstream body that is valid JSON but not an
object — here the empty array — makes `data.get` raise `AttributeError`,
which the generic handler turns into a synthesized 502 response
(`src/server.py` lines 160-162), not a 200 pass-through. -/
theorem claim_C10_counterexample :
    cacheGet ([] : Cache) "k" = none ∧
    (proxy_api [] "k" 0 (.ok "[]" (.arr []))).status = 502 ∧
    (proxy_api [] "k" 0 (.ok "[]" (.arr []))).status ≠ 200 ∧
    (proxy_api [] "k" 0 (.ok "[]" (.arr []))).body ≠ .verbatim "[]" := by
  decide

/-- C10 (amended): on a miss, when the upstream 2xx body is a JSON object
containing neither a `data` field nor a `message` field, the resolver passes
the body through to the client with status 200 and writes nothing to the
store (`src/server.py` lines 154-156). -/
theorem claim_C10 (cache : Cache) (key : String) (now : Int) (raw : String)
    (fields : List (String × Json)) (h : cacheGet cache key = none)
    (hd : jsonGet fields "data" = none)
    (hm : jsonGet fields "message" = none) :
    proxy_api cache key now (.ok raw (.obj fields)) =
      ⟨200, .verbatim raw, 1, none, false⟩ := by
  have hf : get_cached cache key now = none := by simp only [get_cached, h]
  have hs : get_stale cache key = none := by simp only [get_stale, h]
  simp only [proxy_api, hf, stale_or_fetch, hs]
  simp [fetch_and_respond, hd, hm]

/-- C10 witness: an unrecognized object shape is passed through unchanged. -/
theorem claim_C10_witness :
    proxy_api [] "k" 0 (.ok "oddraw" (.obj [("total", Json.num 0)])) =
      ⟨200, .verbatim "oddraw", 1, none, false⟩ :=
  claim_C10 [] "k" 0 "oddraw" [("total", Json.num 0)] rfl rfl rfl
